import Mathlib

/-!
Verification of the HomeDNS record store, authoritative resolver and REST
control plane (shallow embedding of `src/homedns/store.py`,
`src/homedns/dnsserver.py`, `src/homedns/restapi.py`, `src/homedns/jwt.py`
and `src/homedns/cred.py`).

Machine integers are modelled as `Nat`; strings are Lean `String`s
(Python `str.lower` agrees with ASCII lower-casing on the names used
here); `datetime.now()` timestamps are passed explicitly as a `Nat`
parameter; fallible Python code (raised exceptions) is modelled with
`Except`.
-/

namespace HomeDns

deriving instance DecidableEq for Except

/-- Python's `name.split('.')`: splits on every dot, keeping empty pieces
(`''.split('.') == ['']`).  Implemented by structural recursion over the
character list so concrete instances reduce in the kernel. -/
def splitDotAux : List Char → List Char → List String
  | [], acc => [String.mk acc.reverse]
  | c :: cs, acc =>
    if c = '.' then String.mk acc.reverse :: splitDotAux cs []
    else splitDotAux cs (c :: acc)

/-- `name.split('.')`. -/
def pySplitDot (s : String) : List String :=
  splitDotAux s.data []

/-- Python's `str.lower()` (the two agree on the ASCII names this
code base handles). -/
def pyLower (s : String) : String :=
  String.mk (s.data.map Char.toLower)

/-- `'.'.join(parts)`. -/
def pyJoinDot : List String → String
  | [] => ""
  | [s] => s
  | s :: rest => s ++ "." ++ pyJoinDot rest

/-- The record classes of `IRecordStorage.RECORD_MAP`
(`Record_A`, `Record_AAAA`, `Record_CNAME`, `Record_MX`, `Record_SOA`,
`Record_NS` in `store.py`).  The sqlite `type` column stores the class
name; we store this constructor instead. -/
inductive RecordClass
  | A
  | AAAA
  | CNAME
  | MX
  | NS
  | SOA
deriving DecidableEq, Repr

/-- The twisted DNS record payloads used by the repository
(`twisted.names.dns.Record_*`).  `Record_A.address` is kept as its
canonical dotted-quad string (the code round-trips it through
`ipaddress.ip_address`). -/
inductive DnsRecord
  | recA (address : String) (ttl : Nat)
  | recAAAA (address : String) (ttl : Nat)
  | recCNAME (name : String) (ttl : Nat)
  | recMX (name : String) (priority : Nat) (ttl : Nat)
  | recNS (name : String) (ttl : Nat)
  | recSOA (mname : Option String) (serial refresh retry expire minimum ttl : Nat)
deriving DecidableEq, Repr

/-- The python class of a record value (`record.__class__` in `store.py`). -/
def DnsRecord.recordClass : DnsRecord → RecordClass
  | .recA _ _ => .A
  | .recAAAA _ _ => .AAAA
  | .recCNAME _ _ => .CNAME
  | .recMX _ _ _ => .MX
  | .recNS _ _ => .NS
  | .recSOA _ _ _ _ _ _ _ => .SOA

/-- One row of the sqlite table `dns_records`
(columns `type, fqdn, alias, address, ttl, priority, updated`). -/
structure Row where
  kind : RecordClass
  fqdn : String
  aliasName : Option String  -- the `alias` column
  address : Option String
  ttl : Nat
  priority : Option Nat
  updated : Nat
deriving DecidableEq, Repr

/-- The store is the ordered sqlite table (rows in rowid/insertion order,
which is the order a full-table `SELECT` returns). -/
abbrev Store := List Row

/-- DNS type codes used by the repository (`twisted.names.dns.A` = 1,
`NS` = 2, `CNAME` = 5, `SOA` = 6, `MX` = 15, `AAAA` = 28). -/
def dnsA : Nat := 1
def dnsNS : Nat := 2
def dnsCNAME : Nat := 5
def dnsSOA : Nat := 6
def dnsMX : Nat := 15
def dnsAAAA : Nat := 28

/-- `IRecordStorage.RECORD_MAP`: dns type code to record class. -/
def RECORD_MAP : Nat → Option RecordClass := fun t =>
  if t = dnsA then some .A
  else if t = dnsAAAA then some .AAAA
  else if t = dnsCNAME then some .CNAME
  else if t = dnsMX then some .MX
  else if t = dnsSOA then some .SOA
  else if t = dnsNS then some .NS
  else none

/-- `twisted.names.dns.QUERY_TYPES` (external library constant, used by
`dnsserver.py` and `store.py`): the type codes twisted knows names for -
A, NS, MD, MF, CNAME, SOA, MB, MG, MR, NULL, WKS, PTR, HINFO, MINFO, MX,
TXT, RP, AFSDB (1..18), AAAA (28), SRV (33), NAPTR (35), A6 (38),
DNAME (39), OPT (41), SSHFP (44), SPF (99). -/
def QUERY_TYPES : List Nat :=
  [1, 2, 3, 4, 5, 6, 7, 8, 9, 10, 11, 12, 13, 14, 15, 16, 17, 18,
   28, 33, 35, 38, 39, 41, 44, 99]

/-- The exceptions the store can raise. -/
inductive StoreError
  | dnsNotImplemented   -- `DNSNotImplementedError`
  | valueError          -- `ValueError`
  | keyError            -- `KeyError`
  | typeError           -- `TypeError` (bad keyword argument)
  | attributeError      -- `AttributeError` (missing attribute)
deriving DecidableEq, Repr

/-- The `WHERE fqdn = ? [AND type IN (...)]` SELECT of
`SqliteStorage.name_search`: rows whose `fqdn` equals `hostname` and,
when `kinds` is non-empty, whose type is among `kinds`; rows come back
in table order.  (`hostname` is lower-cased by the caller.) -/
def sqlSelect (store : Store) (hostname : String) (kinds : List RecordClass) :
    List Row :=
  store.filter (fun r => r.fqdn = hostname ∧ (kinds = [] ∨ r.kind ∈ kinds))

/-- Resolving each requested dns type code through `RECORD_MAP`
(`name_search` raises `DNSNotImplementedError` on a `KeyError` there). -/
def resolveKinds : List Nat → Except StoreError (List RecordClass)
  | [] => .ok []
  | t :: ts =>
    match RECORD_MAP t with
    | some k => (resolveKinds ts).map (fun ks => k :: ks)
    | none => .error .dnsNotImplemented

/-- `SqliteStorage.name_search`, fuel-indexed.  The Python method calls
itself recursively for the CNAME chase; the recursive call always passes
`record_types = [dns.A]`, whose SELECT returns only `Record_A` rows, so
the real recursion depth is at most 2 and the fuel never runs out when
called with fuel 2 (`name_searchFuel_stable` below).  `construct_record`
raises at the first non-constructible row of the loop: `ValueError` for a
`Record_SOA` row, and `TypeError` for a `Record_AAAA` row (it calls
`Record_AAAA(name=address, ttl=ttl)`, but `Record_AAAA` has no `name`
parameter). -/
def name_searchFuel : Nat → Store → String → List Nat →
    Except StoreError (List Row)
  | 0, store, hostname, record_types => do
    -- fuel exhausted: the chase is skipped.  Never reached from
    -- `name_search` (fuel 2), because the chased sub-searches pass
    -- `[dns.A]` and therefore chase nothing further.
    let kinds ← resolveKinds record_types
    let rows := sqlSelect store (pyLower hostname) kinds
    match rows.find? (fun r => r.kind = .SOA ∨ r.kind = .AAAA) with
    | some bad => .error (if bad.kind = .SOA then .valueError else .typeError)
    | none => .ok rows
  | fuel + 1, store, hostname, record_types => do
    let kinds ← resolveKinds record_types
    let rows := sqlSelect store (pyLower hostname) kinds
    match rows.find? (fun r => r.kind = .SOA ∨ r.kind = .AAAA) with
    | some bad => .error (if bad.kind = .SOA then .valueError else .typeError)
    | none =>
      -- `cname_a_lookups`: `record.name.name.decode()` of each CNAME row,
      -- collected only when `dns.A in record_types`
      let chase : List String :=
        if dnsA ∈ record_types then
          (rows.filter (fun r => r.kind = .CNAME)).filterMap (fun r => r.aliasName)
        else []
      let extra ← chase.mapM (fun tgt => name_searchFuel fuel store tgt [dnsA])
      .ok (rows ++ extra.flatten)

/-- `SqliteStorage.name_search(hostname, record_types)` (fuel 2 suffices,
see `name_searchFuel_stable`). -/
def name_search (store : Store) (hostname : String) (record_types : List Nat) :
    Except StoreError (List Row) :=
  name_searchFuel 2 store hostname record_types

/-- `SqliteStorage.get_record_by_hostname(fqdn, record_type)`. -/
def get_record_by_hostname (store : Store) (fqdn : String) (record_type : Nat) :
    Except StoreError (List Row) :=
  name_search store fqdn [record_type]

/-- `SqliteStorage.update_record(record, fqdn)`.  For `Record_A`/
`Record_AAAA` the UPDATE key is `(type, fqdn)` with the *raw* `fqdn`
argument.  The `Record_CNAME`/`Record_MX` branches never reach their
UPDATE: they evaluate `record.name.lower()` on a twisted `dns.Name`,
which has no `lower` attribute (the MX branch also reads the nonexistent
`record.priority` - twisted `Record_MX` stores `preference`), so both
raise `AttributeError` before any comparison, matching rows or not.  Any
other record class raises `ValueError`. -/
def update_record (store : Store) (record : DnsRecord) (fqdn : String)
    (now : Nat) : Except StoreError Store :=
  match record with
  | .recA address ttl =>
      .ok (store.map (fun r =>
        if r.kind = .A ∧ r.fqdn = fqdn then
          { r with address := some address, ttl := ttl, updated := now }
        else r))
  | .recAAAA address ttl =>
      .ok (store.map (fun r =>
        if r.kind = .AAAA ∧ r.fqdn = fqdn then
          { r with address := some address, ttl := ttl, updated := now }
        else r))
  | .recCNAME _ _ => .error .attributeError
  | .recMX _ _ _ => .error .attributeError
  | _ => .error .valueError

/-- `SqliteStorage._add(record, fqdn, replace)`: lower-cases `fqdn`,
optionally deletes the `(type, fqdn)` rows, then INSERTs one row.  The
CNAME alias column receives `record.name.name.decode()`, which is the
IDNA-encoded - for ASCII: lower-cased - form of the name the record was
constructed with.  The MX branch reads the nonexistent `record.priority`
(twisted `Record_MX` stores `preference`; the `priority` kwarg is
swallowed) and raises `AttributeError` before its INSERT executes.
`Record_NS`/`Record_SOA` raise `ValueError`. -/
def addRecord (store : Store) (record : DnsRecord) (fqdn : String)
    (replace : Bool) (now : Nat) : Except StoreError Store :=
  let fqdnL := pyLower fqdn
  let base :=
    if replace then
      store.filter (fun r => ¬ (r.kind = record.recordClass ∧ r.fqdn = fqdnL))
    else store
  match record with
  | .recA address ttl =>
      .ok (base ++ [{ kind := .A, fqdn := fqdnL, aliasName := none,
                      address := some address, ttl := ttl, priority := none,
                      updated := now }])
  | .recAAAA address ttl =>
      .ok (base ++ [{ kind := .AAAA, fqdn := fqdnL, aliasName := none,
                      address := some address, ttl := ttl, priority := none,
                      updated := now }])
  | .recCNAME name ttl =>
      .ok (base ++ [{ kind := .CNAME, fqdn := fqdnL,
                      aliasName := some (pyLower name),
                      address := none, ttl := ttl, priority := none,
                      updated := now }])
  | .recMX _ _ _ => .error .attributeError
  | _ => .error .valueError

/-- `SqliteStorage.create_record(record, fqdn)` = `_add(record, fqdn, False)`. -/
def create_record (store : Store) (record : DnsRecord) (fqdn : String)
    (now : Nat) : Except StoreError Store :=
  addRecord store record fqdn false now

/-- `SqliteStorage.delete_record_by_hostname(fqdn, record_type)`:
`ValueError` when the type code is not in `dns.QUERY_TYPES`, `KeyError`
when `RECORD_MAP` has no entry for it; otherwise DELETEs the rows with
`type = RECORD_MAP[record_type]` and `fqdn` equal to the *raw* `fqdn`
argument and returns `cursor.rowcount` with the new table. -/
def delete_record_by_hostname (store : Store) (fqdn : String)
    (record_type : Nat) : Except StoreError (Nat × Store) :=
  if record_type ∉ QUERY_TYPES then .error .valueError
  else
    match RECORD_MAP record_type with
    | none => .error .keyError
    | some kind =>
      let kept := store.filter (fun r => ¬ (r.kind = kind ∧ r.fqdn = fqdn))
      .ok (store.length - kept.length, kept)

/-! ## Authoritative resolver (`src/homedns/dnsserver.py`) -/

/-- Configuration of `HomeDnsResolver`: `self._soa` is the set of
`tuple(d.split('.'))` for each configured SOA domain, `self._name_servers`
and the default `self._ttl`. -/
structure ResolverConfig where
  soa_domains : List String
  name_servers : List String
  ttl : Nat

/-- `self._soa = {tuple(d.split('.')) for d in soa_domains}`. -/
def ResolverConfig.soaSet (cfg : ResolverConfig) : List (List String) :=
  cfg.soa_domains.map (fun d => pySplitDot d)

/-- `HomeDnsResolver.get_soa_domain(name)`: `False` (here `none`) when the
name has fewer than two labels, otherwise tests whether the tuple of the
*last two* labels is in `self._soa`; on a hit, returns those two labels
re-joined.  (No case-folding happens here.) -/
def get_soa_domain (cfg : ResolverConfig) (name : String) : Option String :=
  let domain := pySplitDot name
  if domain.length < 2 then none
  else
    let soa_tuple := domain.drop (domain.length - 2)
    if soa_tuple ∈ cfg.soaSet then some (pyJoinDot soa_tuple)
    else none

/-- The failures `HomeDnsResolver.query` can raise:
`twisted.names.error.DomainError` ("not authoritative, try the next
resolver"), `DNSNotImplementedError` (NOTIMP) and
`AuthoritativeDomainError` (authoritative failure / no data). -/
inductive ResolveError
  | domainError
  | dnsNotImplementedError
  | authoritativeDomainError
deriving DecidableEq, Repr

/-- An answer-section entry (`dns.RRHeader`). -/
structure RRHeader where
  name : String
  rtype : Nat
  ttl : Nat
  auth : Bool
  payload : DnsRecord
deriving DecidableEq, Repr

/-- `HomeDnsResolver.get_soa_record(domain, name_server, ttl=self._ttl)`:
the synthesized SOA RR (serial hard-coded to 0). -/
def get_soa_record (domain : String) (name_server : Option String)
    (ttl : Nat) : RRHeader :=
  { name := domain, rtype := dnsSOA, ttl := ttl, auth := true,
    payload := .recSOA name_server 0 46800 6200 3000000 300 ttl }

/-- `HomeDnsResolver.get_ns_record(name_server, domain, ttl)`. -/
def get_ns_record (name_server : String) (domain : String) (ttl : Nat) :
    RRHeader :=
  { name := domain, rtype := dnsNS, ttl := ttl, auth := false,
    payload := .recNS name_server ttl }

/-- The `for r in results` loop body of `HomeDnsResolver.query`: rows of
class `Record_A`/`Record_AAAA`/`Record_CNAME`/`Record_MX` become an
authoritative RRHeader with `ttl = r.record.ttl or self._ttl` (a 0/NULL
ttl falls back to the default); any other class is skipped (`continue`).
The payload is the record `construct_record` built from the row: its
CNAME/MX name is wrapped in `dns.Name` (IDNA-encoded, i.e. lower-cased
for ASCII), and the MX `priority` kwarg is silently swallowed by
`Record_MX` (attribute `preference`), so MX payloads always carry
preference 0 whatever the row's `priority` column holds. -/
def rowToAnswer (cfg : ResolverConfig) (r : Row) : Option RRHeader :=
  let ttl := if r.ttl = 0 then cfg.ttl else r.ttl
  match r.kind with
  | .A => some { name := r.fqdn, rtype := dnsA, ttl := ttl, auth := true,
                 payload := .recA (r.address.getD "") r.ttl }
  | .AAAA => some { name := r.fqdn, rtype := dnsAAAA, ttl := ttl, auth := true,
                    payload := .recAAAA (r.address.getD "") r.ttl }
  | .CNAME => some { name := r.fqdn, rtype := dnsCNAME, ttl := ttl, auth := true,
                     payload := .recCNAME (pyLower (r.aliasName.getD "")) r.ttl }
  | .MX => some { name := r.fqdn, rtype := dnsMX, ttl := ttl, auth := true,
                  payload := .recMX (pyLower (r.aliasName.getD "")) 0 r.ttl }
  | _ => none

/-- `HomeDnsResolver.query(query)` over the shallow store.  The owner name
is `query.name.name.decode()` taken verbatim (never lower-cased here); the
SOA test is `get_soa_domain`; an A query also asks the store for CNAME
rows; SOA/NS queries get synthesized answers; a type code outside
`dns.QUERY_TYPES` raises `DNSNotImplementedError`; any store exception is
wrapped into `AuthoritativeDomainError`, as is an empty answer section. -/
def resolverQuery (cfg : ResolverConfig) (store : Store) (qname : String)
    (qtype : Nat) : Except ResolveError (List RRHeader × List RRHeader × List RRHeader) :=
  match get_soa_domain cfg qname with
  | none => .error .domainError
  | some soa_domain =>
    let query_types := if qtype = dnsA then [qtype, dnsCNAME] else [qtype]
    let soaAnswers :=
      if qtype = dnsSOA then
        [get_soa_record soa_domain cfg.name_servers.head? cfg.ttl]
      else []
    let nsAnswers :=
      if qtype = dnsNS then
        cfg.name_servers.map (fun ns => get_ns_record ns soa_domain cfg.ttl)
      else []
    if qtype ∉ QUERY_TYPES then .error .dnsNotImplementedError
    else
      match name_search store qname query_types with
      | .error _ => .error .authoritativeDomainError
      | .ok rows =>
        let answers := soaAnswers ++ nsAnswers ++ rows.filterMap (rowToAnswer cfg)
        if answers = [] then .error .authoritativeDomainError
        else .ok (answers, [], [])

/-! ## REST control plane (`src/homedns/restapi.py`) -/

/-- State of `DNSRestApi`: `self._soa = {tuple(d.split('.')) for d in
soa_domains}` and the default TTL `self._ttl`. -/
structure RestApi where
  soa_domains : List String
  default_ttl : Nat

/-- `self._soa`. -/
def RestApi.soaSet (api : RestApi) : List (List String) :=
  api.soa_domains.map (fun d => pySplitDot d)

/-- `DNSRestApi.is_soa_domain(name)`, exactly as written: split on `.`;
`if not len(domain) < 2: return False` (so every name with two or more
labels is rejected); otherwise test the tuple of the last (at most) two
labels against `self._soa`. -/
def is_soa_domain (api : RestApi) (name : String) : Bool :=
  let domain := pySplitDot name
  if ¬ domain.length < 2 then false
  else decide (domain.drop (domain.length - 2) ∈ api.soaSet)

/-- The request body of the A-record endpoints as the handlers see it:
the raw payload either fails `json.loads` (`badJson`), parses but lacks
the `address` field (`missingAddress`), or yields `address` and an
optional `ttl`. -/
inductive ABody
  | badJson
  | missingAddress
  | fields (address : String) (ttl : Option Nat)
deriving DecidableEq, Repr

/-- CNAME creation body: `alias` plus optional `ttl`. -/
inductive CnameBody
  | badJson
  | missingAlias
  | fields (aliasTarget : String) (ttl : Option Nat)
deriving DecidableEq, Repr

/-- Outcome of a REST handler: the HTTP status code it sets (klein turns
an uncaught exception into 500) and the store state afterwards. -/
structure RestOutcome where
  status : Nat
  store : Store
deriving DecidableEq, Repr

/-- `DNSRestApi.create_a_record` (`POST /create/a/<hostname>`):
SOA-domain guard (400), JSON / field errors (400 via `Error(BAD_REQUEST)`),
then `store.create_record(Record_A(address, ttl), hostname)` and 201. -/
def create_a_record (api : RestApi) (store : Store) (hostname : String)
    (body : ABody) (now : Nat) : RestOutcome :=
  if ¬ is_soa_domain api hostname then { status := 400, store := store }
  else
    match body with
    | .badJson => { status := 400, store := store }
    | .missingAddress => { status := 400, store := store }
    | .fields address ttl =>
      match create_record store (.recA address (ttl.getD api.default_ttl))
          hostname now with
      | .ok store2 => { status := 201, store := store2 }
      | .error _ => { status := 500, store := store }

/-- `DNSRestApi.update_a_record` (`PUT /update/a/<hostname>`): the same
guards, then `store.update_record(...)`; the handler unconditionally sets
response code 201 — it never inspects how many rows matched and has no
404 path. -/
def update_a_record (api : RestApi) (store : Store) (hostname : String)
    (body : ABody) (now : Nat) : RestOutcome :=
  if ¬ is_soa_domain api hostname then { status := 400, store := store }
  else
    match body with
    | .badJson => { status := 400, store := store }
    | .missingAddress => { status := 400, store := store }
    | .fields address ttl =>
      match update_record store (.recA address (ttl.getD api.default_ttl))
          hostname now with
      | .ok store2 => { status := 201, store := store2 }
      | .error _ => { status := 500, store := store }

/-- `DNSRestApi.upsert_a_record` (`PUT /upsert/a/<hostname>`): guards,
then `get_record_by_hostname`; on a hit `update_record` + 200, otherwise
`create_record` + 201. -/
def upsert_a_record (api : RestApi) (store : Store) (hostname : String)
    (body : ABody) (now : Nat) : RestOutcome :=
  if ¬ is_soa_domain api hostname then { status := 400, store := store }
  else
    match body with
    | .badJson => { status := 400, store := store }
    | .missingAddress => { status := 400, store := store }
    | .fields address ttl =>
      let record : DnsRecord := .recA address (ttl.getD api.default_ttl)
      match get_record_by_hostname store hostname dnsA with
      | .error _ => { status := 500, store := store }
      | .ok result =>
        if result ≠ [] then
          match update_record store record hostname now with
          | .ok store2 => { status := 200, store := store2 }
          | .error _ => { status := 500, store := store }
        else
          match create_record store record hostname now with
          | .ok store2 => { status := 201, store := store2 }
          | .error _ => { status := 500, store := store }

/-- `DNSRestApi.delete_a_by_hostname` (`DELETE /hostname/a/<hostname>`):
*no* SOA-domain guard; calls `store.delete_record_by_hostname(hostname,
dns.A)` and answers 404 when the count is zero, 200 (the default
response code) otherwise. -/
def delete_a_by_hostname (store : Store) (hostname : String) : RestOutcome :=
  match delete_record_by_hostname store hostname dnsA with
  | .ok (count, store2) =>
    { status := if count = 0 then 404 else 200, store := store2 }
  | .error _ => { status := 500, store := store }

/-- `DNSRestApi.create_cname_record` (`POST /create/cname/<hostname>`):
SOA-domain guard, body guards, then
`store.create_record(Record_CNAME(alias, ttl), hostname)` and 201. -/
def create_cname_record (api : RestApi) (store : Store) (hostname : String)
    (body : CnameBody) (now : Nat) : RestOutcome :=
  if ¬ is_soa_domain api hostname then { status := 400, store := store }
  else
    match body with
    | .badJson => { status := 400, store := store }
    | .missingAlias => { status := 400, store := store }
    | .fields aliasTarget ttl =>
      match create_record store (.recCNAME aliasTarget (ttl.getD api.default_ttl))
          hostname now with
      | .ok store2 => { status := 201, store := store2 }
      | .error _ => { status := 500, store := store }

/-! ## JWT subject registry (`src/homedns/jwt.py`, `JwtFileCredentials`)

`self.config` is the in-memory mapping (subject name to
`{certificate_path, created}`; the certificate path is the deterministic
`{dir}/{subject}.crt`, so tracking subject names suffices), the registry
file holds what `AbstractConfig.update()` last wrote, and the certificate
directory holds one `.crt` file per subject. -/

structure Registry where
  config : List String     -- keys of the in-memory `self.config`
  regFile : List String    -- subjects persisted in the registry file
  certFiles : List String  -- subjects whose `{subject}.crt` exists on disk
deriving DecidableEq, Repr

/-- Errors of the registry and credential pipeline. -/
inductive RegError
  | valueError       -- empty certificate
  | invalidSubject   -- `InvalidSubject` (a `LoginFailed`)
  | ioError          -- `AbstractConfig.update()` failed
deriving DecidableEq, Repr

/-- `JwtFileCredentials.add_subject(sub)`.  `updateOk` stands for whether
`self.update()` (the registry-file write) succeeds; on failure the
just-written certificate is unlinked and the exception re-raised.
Returns the raised error (if any) together with the filesystem/memory
state afterwards. -/
def add_subject (reg : Registry) (subject : String) (hasCert : Bool)
    (updateOk : Bool) : Option RegError × Registry :=
  if ¬ hasCert then (some .valueError, reg)
  else
    let certFiles1 :=
      if subject ∈ reg.certFiles then reg.certFiles
      else reg.certFiles ++ [subject]
    let config1 :=
      if subject ∈ reg.config then reg.config else reg.config ++ [subject]
    if updateOk then
      (none, { config := config1, regFile := config1, certFiles := certFiles1 })
    else
      (some .ioError,
       { config := config1, regFile := reg.regFile,
         certFiles := certFiles1.filter (fun s => s ≠ subject) })

/-- `JwtFileCredentials.remove_subject(subject)`: `InvalidSubject` when
unknown; otherwise the config entry is deleted, the certificate file is
unlinked *and then* `self.update()` is attempted — a failing update
leaves the subject in the registry file with its certificate gone. -/
def remove_subject (reg : Registry) (subject : String) (updateOk : Bool) :
    Option RegError × Registry :=
  if subject ∉ reg.config then (some .invalidSubject, reg)
  else
    let config1 := reg.config.filter (fun s => s ≠ subject)
    let certFiles1 := reg.certFiles.filter (fun s => s ≠ subject)
    if updateOk then
      (none, { config := config1, regFile := config1, certFiles := certFiles1 })
    else
      (some .ioError,
       { config := config1, regFile := reg.regFile, certFiles := certFiles1 })

/-! ## Bearer-token authentication (`src/homedns/jwt.py` credential
factory / checker and `src/homedns/cred.py` `RestAuthWrapper`) -/

/-- A bearer token as the pipeline observes it: whether the unverified
`jwt.decode(..., verify_signature=False)` succeeds, the `sub` claim the
unverified payload carries, and whether the verified decode (signature,
audience, issuer, `exp`, `nbf`, leeway) succeeds against the subject's
key. -/
structure JwtToken where
  decodable : Bool
  sub : Option String
  verified : Bool
deriving DecidableEq, Repr

/-- The exceptions `JwtCredentialFactory.decode` can raise.
`InvalidSubject` is a `twisted.cred.error.LoginFailed`; the other two are
not: `nameError` is the `NameError` on the unbound `unverified` local
when the unverified decode failed (the except-branch only logs), and
`fileNotFound` is `read_certificate`'s `FileNotFoundError` for a
registered subject whose PEM file is missing. -/
inductive DecodeError
  | invalidSubject
  | nameError
  | fileNotFound
deriving DecidableEq, Repr

/-- `JwtFileCredentials.get_subject` as used by the factory: unknown (or
absent) `sub` raises `InvalidSubject`; a missing certificate file raises
`FileNotFoundError`. -/
def get_subject (reg : Registry) (subject : Option String) :
    Except DecodeError String :=
  match subject with
  | none => .error .invalidSubject
  | some s =>
    if s ∉ reg.config then .error .invalidSubject
    else if s ∉ reg.certFiles then .error .fileNotFound
    else .ok s

/-- `JwtCredentialFactory.decode(response, request)`: the unverified
decode's failure is only logged, after which reading `unverified` raises
`NameError`; then the subject registry lookup. On success the credential
(token + unverified payload + subject key) is returned; the `sub` claim
rides along. -/
def factory_decode (reg : Registry) (tok : JwtToken) :
    Except DecodeError JwtToken :=
  if ¬ tok.decodable then .error .nameError
  else
    match get_subject reg tok.sub with
    | .error e => .error e
    | .ok _ => .ok tok

/-- `JwtTokenChecker.requestAvatarId`: verified decode failures become
`UnauthorizedLogin` (→ 401 through the session wrapper); success yields
the `sub` claim as the avatar. -/
def requestAvatarId (tok : JwtToken) : Except Unit String :=
  if tok.verified then .ok ((tok.sub).getD "") else .error ()

/-- `RestAuthWrapper._authorizedResource` followed by the login, as an
HTTP status: 401 for a missing/foreign scheme, 401 for `LoginFailed`
from the factory (`UnauthorizedResource`), 500 for any other factory
exception (`_UnsafeErrorPage(500, ...)`), 401 for a failed credential
check (`UnauthorizedLogin` via `HTTPAuthSessionWrapper._login`), and 200
when the wrapped resource is served.  The 401/500 rendering of
`UnauthorizedResource`/`_UnsafeErrorPage` and the `_login` failure path
are twisted library behaviour. -/
def restAuthStatus (reg : Registry) (scheme : String) (tok : JwtToken) :
    Nat :=
  if pyLower scheme ≠ "bearer" then 401
  else
    match factory_decode reg tok with
    | .error .invalidSubject => 401
    | .error .nameError => 500
    | .error .fileNotFound => 500
    | .ok cred =>
      match requestAvatarId cred with
      | .ok _ => 200
      | .error _ => 401


/-! ## Supporting lemmas -/

theorem exceptOkBind {e a b : Type} (x : a) (f : a → Except e b) :
    (Except.ok x : Except e a) >>= f = f x := rfl

theorem exceptErrorBind {e a b : Type} (err : e) (f : a → Except e b) :
    (Except.error err : Except e a) >>= f = .error err := rfl

theorem mapM_ok_eq (g : String → List Row) :
    ∀ l : List String,
      l.mapM (fun t => (Except.ok (g t) : Except StoreError (List Row)))
        = .ok (l.map g)
  | [] => rfl
  | a :: as => by
    rw [List.mapM_cons, mapM_ok_eq g as]
    rfl

theorem sqlSelect_kind_mem {store : Store} {h : String}
    {kinds : List RecordClass} {r : Row}
    (hr : r ∈ sqlSelect store h kinds) (hk : kinds ≠ []) : r.kind ∈ kinds := by
  unfold sqlSelect at hr
  simp only [List.mem_filter, decide_eq_true_eq] at hr
  rcases hr with ⟨-, -, h2 | h2⟩
  · exact absurd h2 hk
  · exact h2

theorem sqlSelect_A_kind {store : Store} {h : String} {r : Row}
    (hr : r ∈ sqlSelect store h [RecordClass.A]) : r.kind = RecordClass.A := by
  have := sqlSelect_kind_mem hr (by simp)
  simpa using this

/-- A `name_search` whose requested types are exactly `[dns.A]` performs
no CNAME chase (its SELECT returns only `Record_A` rows, which all
construct), at every fuel. -/
theorem name_searchFuel_A (fuel : Nat) (store : Store) (h : String) :
    name_searchFuel fuel store h [dnsA]
      = .ok (sqlSelect store (pyLower h) [RecordClass.A]) := by
  have hall : ∀ r ∈ sqlSelect store (pyLower h) [RecordClass.A],
      r.kind = RecordClass.A := fun r hr => sqlSelect_A_kind hr
  have hfind : (sqlSelect store (pyLower h) [RecordClass.A]).find?
      (fun r => r.kind = RecordClass.SOA ∨ r.kind = RecordClass.AAAA) = none := by
    simp only [List.find?_eq_none]
    intro r hr
    simp [hall r hr]
  have hres : resolveKinds [dnsA] = .ok [RecordClass.A] := rfl
  have hcname : (sqlSelect store (pyLower h) [RecordClass.A]).filter
      (fun r => r.kind = RecordClass.CNAME) = [] := by
    simp only [List.filter_eq_nil_iff]
    intro r hr
    simp [hall r hr]
  cases fuel with
  | zero =>
    rw [name_searchFuel, hres, exceptOkBind]
    simp only [hfind]
  | succ n =>
    rw [name_searchFuel, hres, exceptOkBind]
    simp only [hfind, hcname, List.filterMap_nil, ite_self, List.mapM_nil,
      pure_bind, List.flatten_nil, List.append_nil]

theorem name_search_A (store : Store) (h : String) :
    name_search store h [dnsA]
      = .ok (sqlSelect store (pyLower h) [RecordClass.A]) :=
  name_searchFuel_A 2 store h

/-- Any fuel of at least one gives the result of `name_search` (fuel 2):
the chased sub-searches never recurse further. -/
theorem name_searchFuel_stable (fuel : Nat) (store : Store) (h : String)
    (ts : List Nat) :
    name_searchFuel (fuel + 1) store h ts = name_search store h ts := by
  have he : ∀ m : Nat, (fun tgt => name_searchFuel m store tgt [dnsA])
      = (fun tgt => Except.ok (sqlSelect store (pyLower tgt) [RecordClass.A])) :=
    fun m => funext fun tgt => name_searchFuel_A m store tgt
  unfold name_search
  rw [show (2 : Nat) = 1 + 1 from rfl]
  conv_lhs => rw [name_searchFuel, he fuel]
  conv_rhs => rw [name_searchFuel, he 1]

/-! ## Claims -/

/-- C1: the claim says mutating REST endpoints accept owner names whose
suffix is in the SOA set and reject the rest with 400.  The code's
`is_soa_domain` guard is inverted (`if not len(domain) < 2: return
False`), so every name with at least two labels — including names inside
the SOA set — is rejected with 400 by POST /create/a, PUT /update/a,
PUT /upsert/a and POST /create/cname, while DELETE /hostname/a applies no
SOA check at all and mutates the store for non-SOA names. -/
theorem C1_rest_soa_guard_code_bug :
    is_soa_domain ⟨["example.com"], 600⟩ "host.example.com" = false
    ∧ create_a_record ⟨["example.com"], 600⟩ [] "host.example.com"
        (.fields "10.0.0.5" none) 0 = ⟨400, []⟩
    ∧ update_a_record ⟨["example.com"], 600⟩ [] "host.example.com"
        (.fields "10.0.0.5" none) 0 = ⟨400, []⟩
    ∧ upsert_a_record ⟨["example.com"], 600⟩ [] "host.example.com"
        (.fields "10.0.0.5" none) 0 = ⟨400, []⟩
    ∧ create_cname_record ⟨["example.com"], 600⟩ [] "host.example.com"
        (.fields "other.example.com" none) 0 = ⟨400, []⟩
    ∧ delete_a_by_hostname
        [⟨.A, "host.not-soa.com", none, some "1.2.3.4", 300, none, 0⟩]
        "host.not-soa.com" = ⟨200, []⟩ := by
  decide

/-- C2 counterexample: the resolver does not lower-case the owner name
and does not compute a longest matching suffix.  `A.EXAMPLE.COM` has the
configured SOA domain `example.com` as a suffix of its lower-casing, yet
the query fails `NotAuthoritative`; a configured three-label SOA domain
(`sub.example.com`) that is a verbatim suffix of the queried name also
fails `NotAuthoritative`. -/
theorem C2_counterexample :
    resolverQuery ⟨["example.com"], [], 600⟩ [] "A.EXAMPLE.COM" dnsA
      = .error .domainError
    ∧ pyLower "A.EXAMPLE.COM" = "a.example.com"
    ∧ (pySplitDot "a.example.com").drop 1
        ∈ ResolverConfig.soaSet ⟨["example.com"], [], 600⟩
    ∧ resolverQuery ⟨["sub.example.com"], [], 600⟩ [] "a.sub.example.com" dnsA
      = .error .domainError := by
  decide

/-- Once `get_soa_domain` found a SOA suffix, `HomeDnsResolver.query`
can no longer raise `DomainError`: every later failure is
`DNSNotImplementedError` or `AuthoritativeDomainError`. -/
theorem resolverQuery_ne_domainError (cfg : ResolverConfig) (store : Store)
    (qname : String) (qtype : Nat) (d : String)
    (hsoa : get_soa_domain cfg qname = some d) :
    resolverQuery cfg store qname qtype ≠ .error .domainError := by
  intro hcon
  simp only [resolverQuery, hsoa] at hcon
  by_cases hq : qtype ∉ QUERY_TYPES
  · rw [if_pos hq] at hcon
    simp at hcon
  · rw [if_neg hq] at hcon
    cases hns : name_search store qname
        (if qtype = dnsA then [qtype, dnsCNAME] else [qtype]) with
    | error e =>
      rw [hns] at hcon
      simp at hcon
    | ok rows =>
      rw [hns] at hcon
      repeat' split at hcon
      all_goals simp_all

/-- C2 amended: the resolver compares the owner name verbatim (no
case-folding) and tests only the tuple of its last two labels against the
SOA set: a query fails `NotAuthoritative` exactly when the name has fewer
than two labels or its last two labels are not a configured SOA tuple
(so SOA domains of any other label count never match and matching is
case-sensitive). -/
theorem C2_amended_last_two_labels_verbatim (cfg : ResolverConfig)
    (store : Store) (qname : String) (qtype : Nat) :
    resolverQuery cfg store qname qtype = .error .domainError ↔
      ((pySplitDot qname).length < 2 ∨
        (pySplitDot qname).drop ((pySplitDot qname).length - 2) ∉ cfg.soaSet) := by
  have hnone_iff : get_soa_domain cfg qname = none ↔
      ((pySplitDot qname).length < 2 ∨
        (pySplitDot qname).drop ((pySplitDot qname).length - 2) ∉ cfg.soaSet) := by
    unfold get_soa_domain
    by_cases h1 : (pySplitDot qname).length < 2
    · simp [h1]
    · by_cases h2 : (pySplitDot qname).drop ((pySplitDot qname).length - 2)
          ∈ cfg.soaSet
      · simp [h1, h2]
      · simp [h1, h2]
  constructor
  · intro hq
    rw [← hnone_iff]
    cases hsome : get_soa_domain cfg qname with
    | none => rfl
    | some d =>
      exact absurd hq (resolverQuery_ne_domainError cfg store qname qtype d hsome)
  · intro h
    unfold resolverQuery
    rw [hnone_iff.mpr h]

/-- C3 counterexample: a TXT query (type 16, known to twisted's
`QUERY_TYPES` but not one of the six types the store supports) for an
authoritative name does not fail `NotImplemented`: `name_search` raises
`DNSNotImplementedError` but the resolver's catch-all wraps it into
`AuthoritativeDomainError` (client-facing SERVFAIL). -/
theorem C3_counterexample :
    get_soa_domain ⟨["example.com"], [], 600⟩ "a.example.com"
      = some "example.com"
    ∧ resolverQuery ⟨["example.com"], [], 600⟩ [] "a.example.com" 16
      = .error .authoritativeDomainError := by
  decide

/-- C3 amended: for an authoritative name and a query type outside the
store-supported set {A, AAAA, CNAME, MX, NS, SOA}, the resolver fails
`NotImplemented` only when the type is also outside twisted's
`QUERY_TYPES` table (e.g. type 65); a type inside the table (e.g. TXT 16)
reaches `name_search`, whose `DNSNotImplementedError` the resolver wraps
into `AuthoritativeDomainError`. -/
theorem C3_amended_unsupported_type_errors (cfg : ResolverConfig)
    (store : Store) (qname : String) (qtype : Nat) (d : String)
    (hsoa : get_soa_domain cfg qname = some d)
    (hmap : RECORD_MAP qtype = none) :
    resolverQuery cfg store qname qtype =
      .error (if qtype ∈ QUERY_TYPES then ResolveError.authoritativeDomainError
              else ResolveError.dnsNotImplementedError) := by
  have hA : qtype ≠ dnsA := by
    intro e; rw [e] at hmap; simp [RECORD_MAP] at hmap
  have hSOA : qtype ≠ dnsSOA := by
    intro e; rw [e] at hmap; simp [RECORD_MAP, dnsSOA, dnsA, dnsAAAA, dnsCNAME, dnsMX] at hmap
  have hNS : qtype ≠ dnsNS := by
    intro e; rw [e] at hmap; simp [RECORD_MAP, dnsNS, dnsA, dnsAAAA, dnsCNAME, dnsMX, dnsSOA] at hmap
  unfold resolverQuery
  rw [hsoa]
  simp only [if_neg hA, if_neg hSOA, if_neg hNS]
  have hresolve : resolveKinds [qtype] = .error .dnsNotImplemented := by
    simp [resolveKinds, hmap]
  by_cases hq : qtype ∈ QUERY_TYPES
  · rw [if_neg (not_not_intro hq)]
    have hns : name_search store qname [qtype] = .error .dnsNotImplemented := by
      unfold name_search
      rw [show (2 : Nat) = 1 + 1 from rfl, name_searchFuel, hresolve, exceptErrorBind]
    rw [hns]
    simp [hq]
  · rw [if_pos hq]
    simp [hq]

/-- C3 witness: the amended theorem applied to a TXT (16) and a type-65
query on an authoritative name. -/
theorem C3_amended_witness :
    resolverQuery ⟨["example.com"], [], 600⟩ [] "b.example.com" 16
      = .error .authoritativeDomainError
    ∧ resolverQuery ⟨["example.com"], [], 600⟩ [] "b.example.com" 65
      = .error .dnsNotImplementedError := by
  constructor
  · have h := C3_amended_unsupported_type_errors ⟨["example.com"], [], 600⟩ []
      "b.example.com" 16 "example.com" (by decide) (by decide)
    exact h.trans (by decide)
  · have h := C3_amended_unsupported_type_errors ⟨["example.com"], [], 600⟩ []
      "b.example.com" 65 "example.com" (by decide) (by decide)
    exact h.trans (by decide)

/-- C4: a `name_search` whose requested types include `dns.A`, and whose
SELECT returns only constructible rows (no `Record_SOA`, which
`construct_record` rejects with `ValueError`, and no `Record_AAAA`, on
which it crashes with `TypeError`), returns the direct SELECT rows
followed, for each CNAME row among them in order, by the rows of
`name_search(cname_target, [dns.A])`; and that chased sub-search performs
no further chase — it equals the plain SELECT restricted to `Record_A`
rows, all of whose rows have class `Record_A` (so no CNAME row can
trigger a second level). -/
theorem C4_name_search_one_level_chase (store : Store) (hostname : String)
    (types : List Nat) (kinds : List RecordClass)
    (hres : resolveKinds types = .ok kinds)
    (hA : dnsA ∈ types)
    (hnosoa : ∀ r ∈ sqlSelect store (pyLower hostname) kinds,
      r.kind ≠ RecordClass.SOA ∧ r.kind ≠ RecordClass.AAAA) :
    (name_search store hostname types =
      .ok (sqlSelect store (pyLower hostname) kinds
        ++ ((((sqlSelect store (pyLower hostname) kinds).filter
              (fun r => r.kind = RecordClass.CNAME)).filterMap
              (fun r => r.aliasName)).map
            (fun tgt => sqlSelect store (pyLower tgt) [RecordClass.A])).flatten))
    ∧ ∀ tgt : String,
        name_search store tgt [dnsA]
          = .ok (sqlSelect store (pyLower tgt) [RecordClass.A])
        ∧ ∀ r ∈ sqlSelect store (pyLower tgt) [RecordClass.A],
            r.kind = RecordClass.A := by
  constructor
  · have hfind : (sqlSelect store (pyLower hostname) kinds).find?
        (fun r => r.kind = RecordClass.SOA ∨ r.kind = RecordClass.AAAA)
          = none := by
      simp only [List.find?_eq_none]
      intro r hr
      have h2 := hnosoa r hr
      simp [h2.1, h2.2]
    unfold name_search
    rw [show (2 : Nat) = 1 + 1 from rfl]
    conv_lhs => rw [name_searchFuel]
    rw [hres, exceptOkBind]
    simp only [hfind]
    rw [if_pos hA,
      show (fun tgt => name_searchFuel 1 store tgt [dnsA])
          = (fun tgt => Except.ok (sqlSelect store (pyLower tgt) [RecordClass.A]))
        from funext fun tgt => name_searchFuel_A 1 store tgt]
    simp only [mapM_ok_eq, exceptOkBind]
  · intro tgt
    exact ⟨name_search_A store tgt, fun r hr => sqlSelect_A_kind hr⟩

/-- C4 witness: one-level chase on a store holding
`CNAME www.example.com -> host.example.com` and
`A host.example.com -> 10.0.0.5`. -/
theorem C4_witness :
    name_search
      [⟨.CNAME, "www.example.com", some "host.example.com", none, 300, none, 0⟩,
       ⟨.A, "host.example.com", none, some "10.0.0.5", 300, none, 0⟩]
      "www.example.com" [dnsA, dnsCNAME]
      = .ok
        [⟨.CNAME, "www.example.com", some "host.example.com", none, 300, none, 0⟩,
         ⟨.A, "host.example.com", none, some "10.0.0.5", 300, none, 0⟩] := by
  have h := C4_name_search_one_level_chase
    [⟨.CNAME, "www.example.com", some "host.example.com", none, 300, none, 0⟩,
     ⟨.A, "host.example.com", none, some "10.0.0.5", 300, none, 0⟩]
    "www.example.com" [dnsA, dnsCNAME] [.A, .CNAME] rfl (by decide) (by decide)
  exact h.1.trans (by decide)

/-- C5: the claim says any JWT failure — including a token that cannot be
decoded — yields a uniform 401.  Registry misses and verification
failures do give 401, but an undecodable token does not: the factory's
except-branch only logs, the unbound `unverified` local then raises
`NameError`, and `RestAuthWrapper._authorizedResource`'s `BaseException`
branch answers with a 500 error page. -/
theorem C5_undecodable_token_500_code_bug :
    restAuthStatus ⟨["s"], ["s"], ["s"]⟩ "Bearer" ⟨false, some "s", true⟩ = 500
    ∧ restAuthStatus ⟨["s"], ["s"], ["s"]⟩ "Bearer" ⟨true, some "unknown", true⟩ = 401
    ∧ restAuthStatus ⟨["s"], ["s"], ["s"]⟩ "Bearer" ⟨true, some "s", false⟩ = 401
    ∧ restAuthStatus ⟨["s"], ["s"], ["s"]⟩ "Bearer" ⟨true, some "s", true⟩ = 200 := by
  decide

/-- C6 counterexample: `update_record` and `delete_record_by_hostname`
do not case-fold the owner name before comparison.  Against a row stored
(lower-cased) as `host.example.com`, an A update with the name
`HOST.EXAMPLE.COM` modifies zero rows and a delete with that name removes
zero rows — both silently miss instead of case-folding, refuting the
claim's "every operation that compares an owner name case-folds the name
before comparison". -/
theorem C6_counterexample :
    pyLower "HOST.EXAMPLE.COM" = "host.example.com"
    ∧ update_record
        [⟨.A, "host.example.com", none, some "10.0.0.5", 300, none, 0⟩]
        (.recA "10.0.0.6" 300) "HOST.EXAMPLE.COM" 7
      = .ok [⟨.A, "host.example.com", none, some "10.0.0.5", 300, none, 0⟩]
    ∧ delete_record_by_hostname
        [⟨.A, "host.example.com", none, some "10.0.0.5", 300, none, 0⟩]
        "HOST.EXAMPLE.COM" dnsA
      = .ok (0, [⟨.A, "host.example.com", none, some "10.0.0.5", 300, none, 0⟩]) := by
  decide

/-- C6 amended: the stored-lower-case invariant itself holds — every row
a successful `create_record` adds carries the lower-cased owner name, and
a successful `update_record` (only the A/AAAA branches ever return;
CNAME/MX raise `AttributeError` before writing) never changes any row's
`fqdn` — and `name_search` lower-cases the searched name before
comparison; but `update_record` and `delete_record_by_hostname` compare
the raw name verbatim, so updates and deletes with a differently-cased
name silently miss. -/
theorem C6_amended_casefold_only_create_and_search :
    (∀ (store : Store) (record : DnsRecord) (fqdn : String) (now : Nat)
        (s2 : Store),
      create_record store record fqdn now = .ok s2 →
      ∀ r ∈ s2, r ∈ store ∨ r.fqdn = pyLower fqdn)
    ∧ (∀ (store : Store) (record : DnsRecord) (fqdn : String) (now : Nat)
        (s2 : Store),
      update_record store record fqdn now = .ok s2 →
      ∀ r ∈ s2, ∃ r0 ∈ store, r.fqdn = r0.fqdn)
    ∧ (∀ (store : Store) (h : String),
        name_search store h [dnsA]
          = .ok (sqlSelect store (pyLower h) [RecordClass.A]))
    ∧ (∀ (store : Store) (n : String) (k : Nat) (kind : RecordClass),
        RECORD_MAP k = some kind → k ∈ QUERY_TYPES →
        delete_record_by_hostname store n k =
          .ok (store.length
                - (store.filter (fun r => ¬ (r.kind = kind ∧ r.fqdn = n))).length,
              store.filter (fun r => ¬ (r.kind = kind ∧ r.fqdn = n)))) := by
  refine ⟨?_, ?_, ?_, ?_⟩
  · intro store record fqdn now s2 hc r hr
    cases record with
    | recNS nm t => simp [create_record, addRecord] at hc
    | recSOA a b c d e f g => simp [create_record, addRecord] at hc
    | recMX nm p t => simp [create_record, addRecord] at hc
    | recA a t =>
      simp only [create_record, addRecord, Except.ok.injEq] at hc
      subst hc
      rcases List.mem_append.mp hr with h1 | h1
      · exact Or.inl h1
      · simp only [List.mem_singleton] at h1
        subst h1
        exact Or.inr rfl
    | recAAAA a t =>
      simp only [create_record, addRecord, Except.ok.injEq] at hc
      subst hc
      rcases List.mem_append.mp hr with h1 | h1
      · exact Or.inl h1
      · simp only [List.mem_singleton] at h1
        subst h1
        exact Or.inr rfl
    | recCNAME nm t =>
      simp only [create_record, addRecord, Except.ok.injEq] at hc
      subst hc
      rcases List.mem_append.mp hr with h1 | h1
      · exact Or.inl h1
      · simp only [List.mem_singleton] at h1
        subst h1
        exact Or.inr rfl
  · intro store record fqdn now s2 hc r hr
    cases record with
    | recCNAME nm t => simp [update_record] at hc
    | recMX nm p t => simp [update_record] at hc
    | recNS nm t => simp [update_record] at hc
    | recSOA a b c d e f g => simp [update_record] at hc
    | recA a t =>
      simp only [update_record, Except.ok.injEq] at hc
      subst hc
      rcases List.mem_map.mp hr with ⟨r0, hr0, hfr⟩
      refine ⟨r0, hr0, ?_⟩
      subst hfr
      split <;> rfl
    | recAAAA a t =>
      simp only [update_record, Except.ok.injEq] at hc
      subst hc
      rcases List.mem_map.mp hr with ⟨r0, hr0, hfr⟩
      refine ⟨r0, hr0, ?_⟩
      subst hfr
      split <;> rfl
  · intro store h
    exact name_search_A store h
  · intro store n k kind hmap hq
    unfold delete_record_by_hostname
    rw [if_neg (not_not_intro hq), hmap]

/-- C6 witness: the delete clause of the amended statement evaluated on a
one-row store whose name matches verbatim. -/
theorem C6_amended_witness :
    delete_record_by_hostname
        [⟨.A, "host.example.com", none, some "1.2.3.4", 300, none, 0⟩]
        "host.example.com" dnsA = .ok (1, []) := by
  have h := C6_amended_casefold_only_create_and_search.2.2.2
    [⟨.A, "host.example.com", none, some "1.2.3.4", 300, none, 0⟩]
    "host.example.com" dnsA RecordClass.A (by decide) (by decide)
  exact h.trans (by decide)

/-- C7 counterexample: create-then-delete does not restore the pre-create
state when the pre-state already holds a row with the same `(kind, name)`
key — `delete_record_by_hostname` removes *all* matching rows, so both
the old and the new row disappear. -/
theorem C7_counterexample :
    create_record
        [⟨.A, "host.example.com", none, some "10.0.0.5", 300, none, 0⟩]
        (.recA "10.0.0.6" 300) "host.example.com" 1
      = .ok [⟨.A, "host.example.com", none, some "10.0.0.5", 300, none, 0⟩,
             ⟨.A, "host.example.com", none, some "10.0.0.6", 300, none, 1⟩]
    ∧ delete_record_by_hostname
        [⟨.A, "host.example.com", none, some "10.0.0.5", 300, none, 0⟩,
         ⟨.A, "host.example.com", none, some "10.0.0.6", 300, none, 1⟩]
        "host.example.com" dnsA
      = .ok (2, [])
    ∧ ([] : Store) ≠ [⟨.A, "host.example.com", none, some "10.0.0.5", 300, none, 0⟩] := by
  decide

/-- Deleting by `(kind, n)` from `S ++ [row]`, where `row` alone matches,
removes exactly `row`. -/
theorem delete_after_append (S : Store) (row : Row) (n : String) (k : Nat)
    (kind : RecordClass)
    (hmap : RECORD_MAP k = some kind) (hq : k ∈ QUERY_TYPES)
    (hrk : row.kind = kind) (hrf : row.fqdn = n)
    (hnone : ∀ r ∈ S, ¬ (r.kind = kind ∧ r.fqdn = n)) :
    delete_record_by_hostname (S ++ [row]) n k = .ok (1, S) := by
  unfold delete_record_by_hostname
  rw [if_neg (not_not_intro hq), hmap]
  have hfS : S.filter (fun r => ¬ (r.kind = kind ∧ r.fqdn = n)) = S :=
    List.filter_eq_self.mpr (fun a ha => by
      simp only [decide_eq_true_eq]
      exact hnone a ha)
  have hfr : [row].filter (fun r => ¬ (r.kind = kind ∧ r.fqdn = n)) = [] := by
    simp [hrk, hrf]
  simp only [List.filter_append, hfS, hfr, List.append_nil, List.length_append,
    List.length_singleton, Except.ok.injEq, Prod.mk.injEq, and_true]
  omega

/-- C7 amended: create-then-delete restores the pre-create state exactly
when the name is already lower-case (otherwise delete, which compares the
raw name, misses the lower-cased inserted row) and the pre-state has no
row with the created record's `(kind, name)` key (otherwise those rows
are deleted too). -/
theorem C7_amended_create_delete_roundtrip (S : Store) (record : DnsRecord)
    (n : String) (now : Nat) (k : Nat) (S2 : Store)
    (hmap : RECORD_MAP k = some record.recordClass)
    (hq : k ∈ QUERY_TYPES)
    (hlow : pyLower n = n)
    (hnone : ∀ r ∈ S, ¬ (r.kind = record.recordClass ∧ r.fqdn = n))
    (hc : create_record S record n now = .ok S2) :
    delete_record_by_hostname S2 n k = .ok (1, S) := by
  cases record with
  | recNS nm t => simp [create_record, addRecord] at hc
  | recSOA a b c d e f g => simp [create_record, addRecord] at hc
  | recA a t =>
    simp only [create_record, addRecord, Except.ok.injEq] at hc
    subst hc
    exact delete_after_append S _ n k _ hmap hq rfl hlow hnone
  | recAAAA a t =>
    simp only [create_record, addRecord, Except.ok.injEq] at hc
    subst hc
    exact delete_after_append S _ n k _ hmap hq rfl hlow hnone
  | recCNAME nm t =>
    simp only [create_record, addRecord, Except.ok.injEq] at hc
    subst hc
    exact delete_after_append S _ n k _ hmap hq rfl hlow hnone
  | recMX nm p t => simp [create_record, addRecord] at hc

/-- C7 witness: the amended round-trip on an empty store with an
already-lower-case name. -/
theorem C7_amended_witness :
    delete_record_by_hostname
        [⟨.A, "host.example.com", none, some "10.0.0.5", 300, none, 5⟩]
        "host.example.com" dnsA = .ok (1, []) :=
  C7_amended_create_delete_roundtrip [] (.recA "10.0.0.5" 300)
    "host.example.com" 5 dnsA
    [⟨.A, "host.example.com", none, some "10.0.0.5", 300, none, 5⟩]
    (by decide) (by decide) (by decide) (by decide) (by decide)

/-- C8 counterexample: the claim asserts no error for no-match updates of
every kind, but on an empty store (where no row matches any key)
`update_record` raises `ValueError` for `Record_NS` (no NS branch exists)
and `AttributeError` for `Record_CNAME` (`record.name.lower()` on a
twisted `dns.Name`, which has no `lower` attribute). -/
theorem C8_counterexample :
    update_record [] (.recNS "ns1.example.com" 300) "example.com" 0
      = .error .valueError
    ∧ update_record [] (.recCNAME "host.example.com" 300) "www.example.com" 0
      = .error .attributeError := by
  decide

/-- C8 amended: for A/AAAA records, an `update_record` whose
`(type, fqdn)` UPDATE key matches no stored row modifies nothing, inserts
nothing and raises nothing — the store is returned unchanged; CNAME and
MX updates raise `AttributeError` before any comparison (and before any
UPDATE), matching rows or not, because they evaluate
`record.name.lower()` on a twisted `dns.Name` (the MX branch also reads
the nonexistent `record.priority`); NS records have no branch at all and
raise `ValueError`. -/
theorem C8_amended_no_match_update_noop :
    (∀ (store : Store) (record : DnsRecord) (fqdn : String) (now : Nat),
      (record.recordClass = RecordClass.A
        ∨ record.recordClass = RecordClass.AAAA) →
      (∀ r ∈ store, ¬ (r.kind = record.recordClass ∧ r.fqdn = fqdn)) →
      update_record store record fqdn now = .ok store)
    ∧ (∀ (store : Store) (nm : String) (ttl : Nat) (fqdn : String) (now : Nat),
        update_record store (.recCNAME nm ttl) fqdn now
          = .error .attributeError)
    ∧ (∀ (store : Store) (nm : String) (p ttl : Nat) (fqdn : String)
        (now : Nat),
        update_record store (.recMX nm p ttl) fqdn now
          = .error .attributeError)
    ∧ (∀ (store : Store) (nm : String) (ttl : Nat) (fqdn : String) (now : Nat),
        update_record store (.recNS nm ttl) fqdn now = .error .valueError) := by
  refine ⟨?_, fun _ _ _ _ _ => rfl, fun _ _ _ _ _ _ => rfl,
    fun _ _ _ _ _ => rfl⟩
  intro store record fqdn now hcls hnone
  cases record with
  | recCNAME nm t => simp [DnsRecord.recordClass] at hcls
  | recMX nm p t => simp [DnsRecord.recordClass] at hcls
  | recNS nm t => simp [DnsRecord.recordClass] at hcls
  | recSOA a b c d e f g => simp [DnsRecord.recordClass] at hcls
  | recA a t =>
    simp only [update_record]
    congr 1
    rw [List.map_congr_left (fun r hr => if_neg (fun hcon =>
      hnone r hr (by simpa [DnsRecord.recordClass] using hcon)))]
    exact List.map_id store
  | recAAAA a t =>
    simp only [update_record]
    congr 1
    rw [List.map_congr_left (fun r hr => if_neg (fun hcon =>
      hnone r hr (by simpa [DnsRecord.recordClass] using hcon)))]
    exact List.map_id store

/-- C8 witness: a no-match A update on a one-row store leaves it
unchanged without an error. -/
theorem C8_amended_witness :
    update_record
        [⟨.CNAME, "www.example.com", some "x.example.com", none, 300, none, 0⟩]
        (.recA "10.0.0.9" 120) "absent.example.com" 3
      = .ok [⟨.CNAME, "www.example.com", some "x.example.com", none, 300, none, 0⟩] :=
  C8_amended_no_match_update_noop.1
    [⟨.CNAME, "www.example.com", some "x.example.com", none, 300, none, 0⟩]
    (.recA "10.0.0.9" 120) "absent.example.com" 3 (Or.inl rfl) (by decide)

/-- C9 counterexample: `remove_subject` unlinks the certificate *before*
the registry-file update; when that update fails the subject is still in
the registry file but its certificate is gone, contradicting both the
claimed ordering and the claimed invariant. -/
theorem C9_counterexample :
    remove_subject ⟨["s"], ["s"], ["s"]⟩ "s" false
      = (some .ioError, ⟨[], ["s"], []⟩) := by
  decide

/-- C9 amended: `add_subject` does unlink the just-written certificate
when the registry-file update fails (leaving the registry file as it
was); `remove_subject`, however, unlinks the certificate before
attempting the registry update, so a failed update leaves the subject's
registry-file entry without its certificate. -/
theorem C9_amended_registry_ordering (reg : Registry) (s : String) :
    ((add_subject reg s true false).1 = some .ioError
      ∧ s ∉ (add_subject reg s true false).2.certFiles
      ∧ (add_subject reg s true false).2.regFile = reg.regFile)
    ∧ (s ∈ reg.config →
        ((remove_subject reg s false).1 = some .ioError
          ∧ s ∉ (remove_subject reg s false).2.certFiles
          ∧ (remove_subject reg s false).2.regFile = reg.regFile)) := by
  constructor
  · unfold add_subject
    simp [List.mem_filter]
  · intro hs
    unfold remove_subject
    rw [if_neg (not_not_intro hs)]
    simp [List.mem_filter]

/-- C9 witness: the amended statement on a registry holding subjects
`s` and `t`: removing `s` under a failing update keeps `s` in the
registry file while its certificate file is gone. -/
theorem C9_amended_witness :
    (remove_subject ⟨["s", "t"], ["s", "t"], ["s", "t"]⟩ "s" false).2.regFile
      = ["s", "t"] := by
  have h := (C9_amended_registry_ordering ⟨["s", "t"], ["s", "t"], ["s", "t"]⟩ "s").2
    (by decide)
  exact h.2.2.trans (by decide)

/-- C10 counterexample: PUT /update/a with a well-formed body and no
matching row answers 201, not the claimed 404 (`soa_domains = ["local"]`
and hostname `local` pass the inverted SOA guard; the store is empty). -/
theorem C10_counterexample :
    update_a_record ⟨["local"], 600⟩ [] "local" (.fields "10.0.0.5" none) 0
      = ⟨201, []⟩ := by
  decide

/-- C10 amended: once the SOA guard and body checks pass, the update
handler always answers 201 — it runs `update_record` (which updates every
matching `(Record_A, hostname)` row) but never inspects how many rows
matched and has no 404 path. -/
theorem C10_amended_update_always_201 (api : RestApi) (store : Store)
    (hostname : String) (addr : String) (ttl : Option Nat) (now : Nat)
    (hsoa : is_soa_domain api hostname = true) :
    update_a_record api store hostname (.fields addr ttl) now =
      ⟨201, store.map (fun r =>
        if r.kind = .A ∧ r.fqdn = hostname then
          { r with address := some addr, ttl := ttl.getD api.default_ttl,
                   updated := now }
        else r)⟩ := by
  unfold update_a_record
  rw [if_neg (by simp [hsoa])]
  rfl

/-- C10 witness: the amended statement with one matching row (updated,
status 201) — and the no-match witness is `C10_counterexample`'s input. -/
theorem C10_amended_witness :
    update_a_record ⟨["local"], 600⟩
        [⟨.A, "local", none, some "10.0.0.5", 300, none, 0⟩] "local"
        (.fields "10.0.0.6" (some 120)) 9
      = ⟨201, [⟨.A, "local", none, some "10.0.0.6", 120, none, 9⟩]⟩ := by
  have h := C10_amended_update_always_201 ⟨["local"], 600⟩
    [⟨.A, "local", none, some "10.0.0.5", 300, none, 0⟩] "local"
    "10.0.0.6" (some 120) 9 (by decide)
  exact h.trans (by decide)

end HomeDns
